import Mathlib

set_option autoImplicit false

/-!
Shallow embedding of `src/src/components/Map.tsx` (hoopmap_shibuya_v02):
a React component wrapping a Mapbox GL widget. The component owns a nullable
widget handle (`map.current`), a local error string (`mapError`), and wires a
load handler (source/layer registration), a click handler (popup), hover
handlers (cursor), an error handler, and a cleanup function.

The embedding models the component-local state as a pure record and each
effect/callback as a state transformer. Widget-library side effects
(constructor, addSource, addLayer, addControl, remove, Popup) are recorded in
the state (instance/popup lists and counters) so claims about "exactly once"
creation can be stated. Exceptions inside the initialization effect are
modelled with an explicit throw-point parameter and an `Except` result.
-/

/-- Properties of one basketball court feature (interface
`BasketballCourtProperties` in Map.tsx). `hoops` is a non-negative integer
count per the data model. -/
structure BasketballCourtProperties where
  id : String
  name : String
  description : String
  courtType : String
  hoops : Nat
  surface : String
deriving DecidableEq, Repr

/-- A GeoJSON Point geometry: a (longitude, latitude) pair. -/
structure PointGeometry where
  coordinates : Rat × Rat
deriving DecidableEq, Repr

/-- One GeoJSON feature of the basketball-court collection. -/
structure CourtFeature where
  geometry : PointGeometry
  properties : BasketballCourtProperties
deriving DecidableEq, Repr

/-- A GeoJSON feature collection of court features. -/
structure FeatureCollection where
  features : List CourtFeature
deriving DecidableEq, Repr

/-- Modelled from the spec: the bundled static asset
`src/data/basketball_courts.json` (imported at Map.tsx line 4) is not present
under the source tree. Per spec sections 3 and 6 it is a build-time static
collection of basketball-court point features in the Shibuya area, each
carrying the PointOfInterest property set. A representative concrete value is
used; no claim depends on the particular records. -/
def typedBasketballCourts : FeatureCollection :=
  { features :=
      [ { geometry := { coordinates := ((1397014 : Rat)/10000, (356648 : Rat)/10000) }
          properties :=
            { id := "court-1", name := "Shibuya Court", description := "Public court"
              courtType := "outdoor", hoops := 2, surface := "asphalt" } }
      , { geometry := { coordinates := ((1397030 : Rat)/10000, (356660 : Rat)/10000) }
          properties :=
            { id := "court-2", name := "Harajuku Court", description := ""
              courtType := "outdoor", hoops := 4, surface := "concrete" } } ] }

/-- Paint properties of the circle layer (Map.tsx lines 61-66). -/
structure CirclePaint where
  circleRadius : Nat
  circleColor : String
  circleStrokeWidth : Nat
  circleStrokeColor : String
deriving DecidableEq, Repr

/-- Layout properties of the symbol (label) layer (Map.tsx lines 74-79).
`textField` records the attribute name read by the expression
`[get, name]`. -/
structure SymbolLayout where
  textField : String
  textFont : List String
  textOffset : Rat × Rat
  textAnchor : String
deriving DecidableEq, Repr

/-- Paint properties of the symbol (label) layer (Map.tsx lines 80-84). -/
structure SymbolPaint where
  textColor : String
  textHaloColor : String
  textHaloWidth : Nat
deriving DecidableEq, Repr

/-- A layer registered on the widget via `addLayer`: either a circle layer or
a symbol (text-label) layer, each with its id and source name. -/
inductive LayerSpec where
  | circle (id : String) (source : String) (paint : CirclePaint)
  | symbol (id : String) (source : String) (layout : SymbolLayout) (paint : SymbolPaint)
deriving DecidableEq, Repr

/-- Constructor options of the widget (Map.tsx lines 40-43). -/
structure MapOptions where
  style : String
  center : Rat × Rat
  zoom : Nat
deriving DecidableEq, Repr

/-- Observable state of one live Mapbox widget instance: its constructor
options, registered sources, layers, controls, event subscriptions
(event name, optional layer scope), and the canvas cursor style. -/
structure Widget where
  options : MapOptions
  sources : List (String × FeatureCollection)
  layers : List LayerSpec
  controls : List (String × String)
  handlers : List (String × Option String)
  canvasCursor : String
deriving DecidableEq, Repr

/-- A popup created by `new mapboxgl.Popup().setLngLat(...).setHTML(...)`. -/
structure Popup where
  lngLat : Rat × Rat
  html : String
deriving DecidableEq, Repr

/-- Component-local state of the Map component: the nullable widget handle
`map.current`, the `mapError` state, the popups added to the map, and
counters of widget constructor (`new mapboxgl.Map`) and release
(`map.remove()`) invocations. -/
structure ComponentState where
  mapCurrent : Option Widget
  mapError : Option String
  popups : List Popup
  createCount : Nat
  removeCount : Nat
deriving DecidableEq, Repr

/-- State at first mount: no handle, no error, nothing created. -/
def initialState : ComponentState :=
  { mapCurrent := none, mapError := none, popups := [], createCount := 0, removeCount := 0 }

/-- The error banner is rendered exactly when `mapError` is non-null
(Map.tsx lines 159-172). -/
def errorDisplayed (s : ComponentState) : Bool :=
  s.mapError.isSome

/-- Where, if anywhere, an exception is raised inside the `try` block of the
initialization effect: in the `new mapboxgl.Map` constructor, or in
`addControl` (after the handle has been assigned), or nowhere. -/
inductive ThrowPoint where
  | noThrow
  | atConstructor
  | atAddControl
deriving DecidableEq, Repr

/-- The constructor options passed at Map.tsx lines 40-43: streets style,
Shibuya-area center, zoom 13. -/
def initialMapOptions : MapOptions :=
  { style := "mapbox://styles/mapbox/streets-v12"
    center := ((1397014 : Rat)/10000, (356648 : Rat)/10000)
    zoom := 13 }

/-- A widget as produced by the constructor plus the two `on` subscriptions
registered at Map.tsx lines 46 and 125, before `addControl` runs. -/
def freshWidget : Widget :=
  { options := initialMapOptions, sources := [], layers := [], controls := []
    handlers := [("load", none), ("error", none)], canvasCursor := "" }

/-- The `try` block of the initialization effect (Map.tsx lines 38-132):
constructs the widget, registers the load and error subscriptions, and adds
the navigation control. Returns the state after whatever side effects ran
before the given throw point, together with the raised exception if any. -/
def tryBlock (tp : ThrowPoint) (s : ComponentState) : ComponentState × Option String :=
  match tp with
  | .atConstructor => (s, some "exception in map constructor")
  | .atAddControl =>
      ({ s with mapCurrent := some freshWidget, createCount := s.createCount + 1 },
       some "exception in addControl")
  | .noThrow =>
      ({ s with
          mapCurrent := some { freshWidget with controls := [("NavigationControl", "top-right")] }
          createCount := s.createCount + 1 }, none)

/-- The initialization effect body (Map.tsx lines 28-136), with exception
propagation made explicit: an uncaught exception would surface as
`Except.error`. Guards in source order: the initialize-once guard (line 29),
the container guard (line 30), the token check (line 33), then the
`try`/`catch` whose catch clause stores the generic message
"Failed to initialize map" (line 135). -/
def initEffectE (containerPresent : Bool) (accessToken : String) (tp : ThrowPoint)
    (s : ComponentState) : Except String ComponentState :=
  if s.mapCurrent.isSome then .ok s
  else if containerPresent = false then .ok s
  else if accessToken = "" then
    .ok { s with
            mapError := some "Mapbox access token is missing. Please check your environment variables." }
  else
    match tryBlock tp s with
    | (s1, some _) => .ok { s1 with mapError := some "Failed to initialize map" }
    | (s1, none) => .ok s1

/-- The initialization effect as the hosting page observes it: the state it
leaves behind (unchanged if an exception were to escape). -/
def initEffect (containerPresent : Bool) (accessToken : String) (tp : ThrowPoint)
    (s : ComponentState) : ComponentState :=
  match initEffectE containerPresent accessToken tp s with
  | .ok s1 => s1
  | .error _ => s

/-- The circle layer registered at Map.tsx lines 57-67. -/
def circleLayerSpec : LayerSpec :=
  .circle "basketball-courts-layer" "basketball-courts"
    { circleRadius := 8, circleColor := "#FF5733", circleStrokeWidth := 2
      circleStrokeColor := "#ffffff" }

/-- The text-label layer registered at Map.tsx lines 70-85. -/
def labelLayerSpec : LayerSpec :=
  .symbol "court-labels" "basketball-courts"
    { textField := "name", textFont := ["Open Sans Regular"]
      textOffset := (0, (3 : Rat)/2), textAnchor := "top" }
    { textColor := "#333", textHaloColor := "#fff", textHaloWidth := 1 }

/-- The load handler (Map.tsx lines 46-123): guarded by `if (map.current)`,
it registers the GeoJSON source, the circle layer, the label layer, and the
three layer-scoped event subscriptions. -/
def loadHandler (s : ComponentState) : ComponentState :=
  match s.mapCurrent with
  | none => s
  | some w =>
      { s with mapCurrent := some { w with
          sources := w.sources ++ [("basketball-courts", typedBasketballCourts)]
          layers := w.layers ++ [circleLayerSpec, labelLayerSpec]
          handlers := w.handlers ++
            [("click", some "basketball-courts-layer"),
             ("mouseenter", some "basketball-courts-layer"),
             ("mouseleave", some "basketball-courts-layer")] } }

/-- The payload of a layer click event: `e.features` may be absent or an
empty list. -/
structure ClickEvent where
  features : Option (List CourtFeature)
deriving DecidableEq, Repr

/-- The popup HTML template built at Map.tsx lines 98-106 from the clicked
properties of the clicked feature. -/
def popupContent (p : BasketballCourtProperties) : String :=
  "\n                            <h3>" ++ p.name ++
  "</h3>\n                            <p>" ++ p.description ++
  "</p>\n                            <ul>\n                                <li><strong>Type:</strong> " ++
  p.courtType ++
  "</li>\n                                <li><strong>Hoops:</strong> " ++ toString p.hoops ++
  "</li>\n                                <li><strong>Surface:</strong> " ++ p.surface ++
  "</li>\n                            </ul>\n                        "

/-- The click handler (Map.tsx lines 88-112): a no-op unless `e.features` is
a non-empty list and the handle is live; otherwise it builds a popup from the
properties of the first feature, anchored at a copy of its Point coordinate. -/
def clickHandler (e : ClickEvent) (s : ComponentState) : ComponentState :=
  match e.features, s.mapCurrent with
  | some (f :: _), some _ =>
      { s with popups := s.popups ++
          [{ lngLat := f.geometry.coordinates, html := popupContent f.properties }] }
  | _, _ => s

/-- The mouseenter handler (Map.tsx lines 115-117). -/
def mouseEnterHandler (s : ComponentState) : ComponentState :=
  match s.mapCurrent with
  | none => s
  | some w => { s with mapCurrent := some { w with canvasCursor := "pointer" } }

/-- The mouseleave handler (Map.tsx lines 119-121). -/
def mouseLeaveHandler (s : ComponentState) : ComponentState :=
  match s.mapCurrent with
  | none => s
  | some w => { s with mapCurrent := some { w with canvasCursor := "" } }

/-- The widget error handler (Map.tsx lines 125-128): logs and sets the
generic banner message. -/
def errorHandler (s : ComponentState) : ComponentState :=
  { s with mapError := some "Error loading map" }

/-- The effect cleanup (Map.tsx lines 139-144): if the handle is live,
release the widget and null the handle; otherwise do nothing. -/
def cleanup (s : ComponentState) : ComponentState :=
  match s.mapCurrent with
  | none => s
  | some _ => { s with mapCurrent := none, removeCount := s.removeCount + 1 }

/-- The sources registered on the live widget, if any. -/
def sourcesOf (s : ComponentState) : Option (List (String × FeatureCollection)) :=
  s.mapCurrent.map (fun w => w.sources)

/-- The layers registered on the live widget, if any. -/
def layersOf (s : ComponentState) : Option (List LayerSpec) :=
  s.mapCurrent.map (fun w => w.layers)

/-- The id of a registered layer. -/
def layerId : LayerSpec → String
  | .circle i _ _ => i
  | .symbol i _ _ _ => i

/-- How many sources of the given name are registered on the live widget. -/
def countSources (s : ComponentState) (n : String) : Nat :=
  match s.mapCurrent with
  | none => 0
  | some w => (w.sources.filter (fun q => q.1 = n)).length

/-- How many layers of the given id are registered on the live widget. -/
def countLayers (s : ComponentState) (i : String) : Nat :=
  match s.mapCurrent with
  | none => 0
  | some w => (w.layers.filter (fun l => layerId l = i)).length

/-- The first registered layer with the given id, if any. -/
def findLayer (s : ComponentState) (i : String) : Option LayerSpec :=
  match s.mapCurrent with
  | none => none
  | some w => w.layers.find? (fun l => layerId l = i)

/-- The circle fill color of a layer, when it is a circle layer. -/
def circleColorOf : LayerSpec → Option String
  | .circle _ _ p => some p.circleColor
  | .symbol _ _ _ _ => none

/-- The circle stroke width of a layer, when it is a circle layer. -/
def circleStrokeWidthOf : LayerSpec → Option Nat
  | .circle _ _ p => some p.circleStrokeWidth
  | .symbol _ _ _ _ => none

/-- The text attribute a layer labels features with, when it is a symbol
layer. -/
def textFieldOf : LayerSpec → Option String
  | .circle _ _ _ => none
  | .symbol _ _ l _ => some l.textField

/-- `whole` contains `sub` as a contiguous substring. -/
def containsText (whole sub : String) : Prop :=
  sub.data <:+: whole.data

/-- The widget as it stands right after a fully successful initialization
effect: constructed, subscribed, navigation control added. -/
def readyWidget : Widget :=
  { freshWidget with controls := [("NavigationControl", "top-right")] }

/-- Component state after a fully successful initialization effect from the
initial state. -/
def readyState : ComponentState :=
  { initialState with mapCurrent := some readyWidget, createCount := 1 }

/-- The example feature of spec section 8: Court A, outdoor, 2 hoops,
asphalt, at a concrete (lng, lat). -/
def sampleFeature : CourtFeature :=
  { geometry := { coordinates := ((1397 : Rat)/10, (35665 : Rat)/1000) }
    properties :=
      { id := "court-a", name := "Court A", description := "Nice court"
        courtType := "outdoor", hoops := 2, surface := "asphalt" } }

/-- A click event carrying exactly the sample feature. -/
def sampleClickEvent : ClickEvent :=
  { features := some [sampleFeature] }

/-- A successful initialization effect from the initial state with a
non-empty token yields exactly the ready state. -/
theorem initEffect_valid (t : String) (ht : t ≠ "") :
    initEffect true t ThrowPoint.noThrow initialState = readyState := by
  simp [initEffect, initEffectE, tryBlock, initialState, readyState, readyWidget, ht]

/-- The initialization effect never produces an uncaught exception. -/
theorem initEffectE_exists_ok (c : Bool) (t : String) (tp : ThrowPoint) (s : ComponentState) :
    ∃ s1, initEffectE c t tp s = Except.ok s1 := by
  unfold initEffectE
  split
  · exact ⟨_, rfl⟩
  split
  · exact ⟨_, rfl⟩
  split
  · exact ⟨_, rfl⟩
  split <;> exact ⟨_, rfl⟩

/-- A string visibly of the shape `a ++ sub ++ b` contains `sub`. -/
theorem containsText_here (a sub b : String) : containsText (a ++ sub ++ b) sub :=
  ⟨a.data, b.data, by simp [String.data_append]⟩

/-- The popup body contains the name of the clicked feature. -/
theorem popupContent_contains_name (p : BasketballCourtProperties) :
    containsText (popupContent p) p.name := by
  have h : popupContent p =
      "\n                            <h3>" ++ p.name ++
      ("</h3>\n                            <p>" ++ p.description ++
       "</p>\n                            <ul>\n                                <li><strong>Type:</strong> " ++
       p.courtType ++
       "</li>\n                                <li><strong>Hoops:</strong> " ++ toString p.hoops ++
       "</li>\n                                <li><strong>Surface:</strong> " ++ p.surface ++
       "</li>\n                            </ul>\n                        ") := by
    simp [popupContent, String.append_assoc]
  rw [h]
  exact containsText_here _ _ _

/-- The popup body contains the description of the clicked feature. -/
theorem popupContent_contains_description (p : BasketballCourtProperties) :
    containsText (popupContent p) p.description := by
  have h : popupContent p =
      ("\n                            <h3>" ++ p.name ++
       "</h3>\n                            <p>") ++ p.description ++
      ("</p>\n                            <ul>\n                                <li><strong>Type:</strong> " ++
       p.courtType ++
       "</li>\n                                <li><strong>Hoops:</strong> " ++ toString p.hoops ++
       "</li>\n                                <li><strong>Surface:</strong> " ++ p.surface ++
       "</li>\n                            </ul>\n                        ") := by
    simp [popupContent, String.append_assoc]
  rw [h]
  exact containsText_here _ _ _

/-- The popup body contains the court type of the clicked feature. -/
theorem popupContent_contains_courtType (p : BasketballCourtProperties) :
    containsText (popupContent p) p.courtType := by
  have h : popupContent p =
      ("\n                            <h3>" ++ p.name ++
       "</h3>\n                            <p>" ++ p.description ++
       "</p>\n                            <ul>\n                                <li><strong>Type:</strong> ") ++
      p.courtType ++
      ("</li>\n                                <li><strong>Hoops:</strong> " ++ toString p.hoops ++
       "</li>\n                                <li><strong>Surface:</strong> " ++ p.surface ++
       "</li>\n                            </ul>\n                        ") := by
    simp [popupContent, String.append_assoc]
  rw [h]
  exact containsText_here _ _ _

/-- The popup body contains the decimal rendering of the hoop count of the
clicked feature. -/
theorem popupContent_contains_hoops (p : BasketballCourtProperties) :
    containsText (popupContent p) (toString p.hoops) := by
  have h : popupContent p =
      ("\n                            <h3>" ++ p.name ++
       "</h3>\n                            <p>" ++ p.description ++
       "</p>\n                            <ul>\n                                <li><strong>Type:</strong> " ++
       p.courtType ++
       "</li>\n                                <li><strong>Hoops:</strong> ") ++ toString p.hoops ++
      ("</li>\n                                <li><strong>Surface:</strong> " ++ p.surface ++
       "</li>\n                            </ul>\n                        ") := by
    simp [popupContent, String.append_assoc]
  rw [h]
  exact containsText_here _ _ _

/-- The popup body contains the surface of the clicked feature. -/
theorem popupContent_contains_surface (p : BasketballCourtProperties) :
    containsText (popupContent p) p.surface := by
  have h : popupContent p =
      ("\n                            <h3>" ++ p.name ++
       "</h3>\n                            <p>" ++ p.description ++
       "</p>\n                            <ul>\n                                <li><strong>Type:</strong> " ++
       p.courtType ++
       "</li>\n                                <li><strong>Hoops:</strong> " ++ toString p.hoops ++
       "</li>\n                                <li><strong>Surface:</strong> ") ++ p.surface ++
      "</li>\n                            </ul>\n                        " := by
    simp [popupContent, String.append_assoc]
  rw [h]
  exact containsText_here _ _ _

/-- C1: if the Mapbox access token is absent at first mount, the
initialization effect sets the error state to exactly the string
"Mapbox access token is missing. Please check your environment variables.",
the error banner is displayed, the widget handle stays null, and the map
constructor is never invoked. -/
theorem missing_token_errors_without_creation (tp : ThrowPoint) :
    (initEffect true "" tp initialState).mapError =
      some "Mapbox access token is missing. Please check your environment variables." ∧
    errorDisplayed (initEffect true "" tp initialState) = true ∧
    (initEffect true "" tp initialState).mapCurrent = none ∧
    (initEffect true "" tp initialState).createCount = 0 := by
  cases tp <;> decide

/-- C2: with a valid credential and successful creation, exactly one widget
instance is created from the initial mount; and whenever the initialization
effect runs while a widget handle is already live, it returns the state
unchanged, so zero additional instances are created. -/
theorem widget_created_exactly_once (t : String) (ht : t ≠ "")
    (c2 : Bool) (t2 : String) (tp2 : ThrowPoint) :
    (initEffect true t ThrowPoint.noThrow initialState).createCount = 1 ∧
    (∀ s : ComponentState, s.mapCurrent.isSome = true → initEffect c2 t2 tp2 s = s) := by
  constructor
  · rw [initEffect_valid t ht]
    rfl
  · intro s hs
    simp [initEffect, initEffectE, hs]

/-- Witness for C2 at the token "tok": one creation on first run, and a
second run of the effect on the resulting state is the identity. -/
theorem widget_created_exactly_once_witness :
    (initEffect true "tok" ThrowPoint.noThrow initialState).createCount = 1 ∧
    initEffect true "tok" ThrowPoint.noThrow
        (initEffect true "tok" ThrowPoint.noThrow initialState) =
      initEffect true "tok" ThrowPoint.noThrow initialState := by
  have h := widget_created_exactly_once "tok" (by decide) true "tok" ThrowPoint.noThrow
  refine ⟨h.1, h.2 _ ?_⟩
  rw [initEffect_valid "tok" (by decide)]
  rfl

/-- C5: a click whose feature list is absent or empty, or arriving after the
widget handle has been released, is a no-op: the component state, popups
included, is unchanged, and no exception arises (the handler is total). -/
theorem click_without_feature_is_noop (e : ClickEvent) (s : ComponentState)
    (h : e.features = none ∨ e.features = some [] ∨ s.mapCurrent = none) :
    clickHandler e s = s := by
  unfold clickHandler
  split
  · rcases h with h | h | h <;> simp_all
  · rfl

/-- Witness for C5: a click with an absent feature list on the ready state,
an empty-list click on the ready state, and a click after release. -/
theorem click_without_feature_is_noop_witness :
    clickHandler { features := none } readyState = readyState ∧
    clickHandler { features := some [] } readyState = readyState ∧
    clickHandler { features := some [sampleFeature] } initialState = initialState :=
  ⟨click_without_feature_is_noop _ _ (Or.inl rfl),
   click_without_feature_is_noop _ _ (Or.inr (Or.inl rfl)),
   click_without_feature_is_noop _ _ (Or.inr (Or.inr rfl))⟩

/-- C6: after successful creation, cleanup releases the widget exactly once
and nulls the handle; running the cleanup a second time performs no further
release and is the identity (so a double-unmount cannot throw). -/
theorem cleanup_releases_once (s : ComponentState) (w : Widget)
    (hw : s.mapCurrent = some w) :
    (cleanup s).mapCurrent = none ∧
    (cleanup s).removeCount = s.removeCount + 1 ∧
    cleanup (cleanup s) = cleanup s := by
  simp [cleanup, hw]

/-- Witness for C6 at the ready state. -/
theorem cleanup_releases_once_witness :
    (cleanup readyState).mapCurrent = none ∧
    (cleanup readyState).removeCount = readyState.removeCount + 1 ∧
    cleanup (cleanup readyState) = cleanup readyState :=
  cleanup_releases_once readyState readyWidget rfl

/-- C3: after the load event fires on a freshly initialized widget, the POI
source and exactly two layers are registered, each exactly once: a circle
layer whose fill color is "#FF5733" and whose stroke width is 2, and a
text-label symbol layer labelling features by their name attribute. -/
theorem overlay_registered_once_with_styling (t : String) (ht : t ≠ "") :
    countSources (loadHandler (initEffect true t ThrowPoint.noThrow initialState))
        "basketball-courts" = 1 ∧
    countLayers (loadHandler (initEffect true t ThrowPoint.noThrow initialState))
        "basketball-courts-layer" = 1 ∧
    countLayers (loadHandler (initEffect true t ThrowPoint.noThrow initialState))
        "court-labels" = 1 ∧
    layersOf (loadHandler (initEffect true t ThrowPoint.noThrow initialState)) =
      some [circleLayerSpec, labelLayerSpec] ∧
    (findLayer (loadHandler (initEffect true t ThrowPoint.noThrow initialState))
        "basketball-courts-layer").bind circleColorOf = some "#FF5733" ∧
    (findLayer (loadHandler (initEffect true t ThrowPoint.noThrow initialState))
        "basketball-courts-layer").bind circleStrokeWidthOf = some 2 ∧
    (findLayer (loadHandler (initEffect true t ThrowPoint.noThrow initialState))
        "court-labels").bind textFieldOf = some "name" := by
  rw [initEffect_valid t ht]
  exact ⟨rfl, rfl, rfl, rfl, rfl, rfl, rfl⟩

/-- Witness for C3 at the token "tok". -/
theorem overlay_registered_once_with_styling_witness :
    countSources (loadHandler (initEffect true "tok" ThrowPoint.noThrow initialState))
        "basketball-courts" = 1 ∧
    countLayers (loadHandler (initEffect true "tok" ThrowPoint.noThrow initialState))
        "basketball-courts-layer" = 1 ∧
    countLayers (loadHandler (initEffect true "tok" ThrowPoint.noThrow initialState))
        "court-labels" = 1 ∧
    layersOf (loadHandler (initEffect true "tok" ThrowPoint.noThrow initialState)) =
      some [circleLayerSpec, labelLayerSpec] ∧
    (findLayer (loadHandler (initEffect true "tok" ThrowPoint.noThrow initialState))
        "basketball-courts-layer").bind circleColorOf = some "#FF5733" ∧
    (findLayer (loadHandler (initEffect true "tok" ThrowPoint.noThrow initialState))
        "basketball-courts-layer").bind circleStrokeWidthOf = some 2 ∧
    (findLayer (loadHandler (initEffect true "tok" ThrowPoint.noThrow initialState))
        "court-labels").bind textFieldOf = some "name" :=
  overlay_registered_once_with_styling "tok" (by decide)

/-- C4: a click on the circle layer carrying a non-empty feature list, while
the handle is live, opens exactly one popup anchored at the coordinate of
the first feature, whose body contains the literal name, description, court
type, decimal hoop count, and surface of that feature. -/
theorem click_opens_popup_with_details (e : ClickEvent) (s : ComponentState) (w : Widget)
    (f : CourtFeature) (rest : List CourtFeature)
    (hw : s.mapCurrent = some w) (hf : e.features = some (f :: rest)) :
    (clickHandler e s).popups =
      s.popups ++ [{ lngLat := f.geometry.coordinates, html := popupContent f.properties }] ∧
    containsText (popupContent f.properties) f.properties.name ∧
    containsText (popupContent f.properties) f.properties.description ∧
    containsText (popupContent f.properties) f.properties.courtType ∧
    containsText (popupContent f.properties) (toString f.properties.hoops) ∧
    containsText (popupContent f.properties) f.properties.surface := by
  refine ⟨?_, popupContent_contains_name _, popupContent_contains_description _,
    popupContent_contains_courtType _, popupContent_contains_hoops _,
    popupContent_contains_surface _⟩
  simp [clickHandler, hw, hf]

/-- Witness for C4: clicking the sample feature (Court A) on the ready state
appends the expected popup, whose body contains the five literal strings. -/
theorem click_opens_popup_with_details_witness :
    (clickHandler sampleClickEvent readyState).popups =
      readyState.popups ++
        [{ lngLat := sampleFeature.geometry.coordinates
           html := popupContent sampleFeature.properties }] ∧
    containsText (popupContent sampleFeature.properties) "Court A" ∧
    containsText (popupContent sampleFeature.properties) "Nice court" ∧
    containsText (popupContent sampleFeature.properties) "outdoor" ∧
    containsText (popupContent sampleFeature.properties) "2" ∧
    containsText (popupContent sampleFeature.properties) "asphalt" :=
  click_opens_popup_with_details sampleClickEvent readyState readyWidget
    sampleFeature [] rfl rfl

/-- C7: every exception raised during widget construction or control
registration is caught inside the initialization effect — the effect always
returns normally (never an uncaught exception) — and, when the guards pass
and an exception is raised, the error state holds the generic message
"Failed to initialize map". -/
theorem init_exceptions_caught (c : Bool) (t : String) (tp : ThrowPoint)
    (s : ComponentState) :
    initEffectE c t tp s = Except.ok (initEffect c t tp s) ∧
    (s.mapCurrent = none → t ≠ "" → tp ≠ ThrowPoint.noThrow →
      (initEffect true t tp s).mapError = some "Failed to initialize map") := by
  constructor
  · obtain ⟨s1, h⟩ := initEffectE_exists_ok c t tp s
    unfold initEffect
    rw [h]
  · intro hm ht htp
    cases tp <;> simp_all [initEffect, initEffectE, tryBlock]

/-- Witness for C7: a constructor exception with a valid token and empty
handle is absorbed and converted to the generic message. -/
theorem init_exceptions_caught_witness :
    initEffectE true "tok" ThrowPoint.atConstructor initialState =
      Except.ok (initEffect true "tok" ThrowPoint.atConstructor initialState) ∧
    (initEffect true "tok" ThrowPoint.atConstructor initialState).mapError =
      some "Failed to initialize map" := by
  have h := init_exceptions_caught true "tok" ThrowPoint.atConstructor initialState
  exact ⟨h.1, h.2 rfl (by decide) (by decide)⟩

/-- C8: the widget error handler sets the error banner state to the generic
message and changes nothing else: the handle, popups, and both side-effect
counters are untouched, so a live map stays live behind the banner. -/
theorem runtime_error_sets_banner_only (s : ComponentState) :
    (errorHandler s).mapError = some "Error loading map" ∧
    errorDisplayed (errorHandler s) = true ∧
    (errorHandler s).mapCurrent = s.mapCurrent ∧
    (errorHandler s).popups = s.popups ∧
    (errorHandler s).createCount = s.createCount ∧
    (errorHandler s).removeCount = s.removeCount ∧
    (s.mapCurrent.isSome = true → (errorHandler s).mapCurrent.isSome = true) := by
  simp [errorHandler, errorDisplayed]

/-- Witness for C8 at the ready state: the banner is set and the handle is
still non-null. -/
theorem runtime_error_sets_banner_only_witness :
    (errorHandler readyState).mapError = some "Error loading map" ∧
    (errorHandler readyState).mapCurrent.isSome = true := by
  have h := runtime_error_sets_banner_only readyState
  exact ⟨h.1, h.2.2.2.2.2.2 rfl⟩

/-- C9: the click, mouseenter and mouseleave callbacks leave the registered
POI collection untouched: the sources (which hold every feature with its
properties and coordinates) and the layers of the live widget are unchanged
by each callback. -/
theorem callbacks_preserve_poi_collection (e : ClickEvent) (s : ComponentState) :
    sourcesOf (clickHandler e s) = sourcesOf s ∧
    layersOf (clickHandler e s) = layersOf s ∧
    sourcesOf (mouseEnterHandler s) = sourcesOf s ∧
    layersOf (mouseEnterHandler s) = layersOf s ∧
    sourcesOf (mouseLeaveHandler s) = sourcesOf s ∧
    layersOf (mouseLeaveHandler s) = layersOf s := by
  refine ⟨?_, ?_, ?_, ?_, ?_, ?_⟩
  · unfold clickHandler
    split <;> rfl
  · unfold clickHandler
    split <;> rfl
  · unfold mouseEnterHandler
    split <;> simp_all [sourcesOf]
  · unfold mouseEnterHandler
    split <;> simp_all [layersOf]
  · unfold mouseLeaveHandler
    split <;> simp_all [sourcesOf]
  · unfold mouseLeaveHandler
    split <;> simp_all [layersOf]

/-- C10: if the DOM mount container reference is absent, the initialization
effect returns the state unchanged — before the credential check, so no
widget is created and, even with an empty token, no error state is set. -/
theorem missing_container_returns_silently (t : String) (tp : ThrowPoint)
    (s : ComponentState) :
    initEffect false t tp s = s := by
  cases hm : s.mapCurrent.isSome <;> simp [initEffect, initEffectE, hm]
